import Mathlib

/-
Shallow embedding of `src/backend/scholarships/recommendation.py`.

Modelling conventions:
* Django querysets become `List Scholarship`; queryset `filter` is `List.filter`,
  `distinct` is `List.dedup`, `values_list(..).distinct()` is `map` + `dedup`.
* Python strings become `String`; all string primitives used by the source
  (`strip`, `replace`, `in`, `lower`, `' '.join`) are re-implemented below by
  structural recursion over `List Char` so that every definition evaluates
  inside the kernel.
* The external collaborators are parameters: the user-profile store is a
  lookup function, the OpenAI call outcome is an `Except ApiError String`
  (`Except.error` models a raised exception caught inside `call_gpt`), and
  Python's `json.loads` is a parameter `loads : String → Option Json`
  (`none` models a raised `JSONDecodeError`).
* Exceptions that the source lets escape (AttributeError from `item.get` on a
  non-dict, TypeError from an unhashable dict key, KeyError from `r['reason']`)
  are modelled with `Except PyErr`.
* The second component of the results of `call_gpt`,
  `recommend_final_scholarships_by_gpt` and `recommend` counts how many times
  `openai.ChatCompletion.create` (the external text-generation function) is
  invoked during the call.
-/

namespace ScholarMate

/-- JSON values, the possible results of Python's `json.loads`.  Numbers are
modelled as integers (no claim depends on float payloads); objects are
association lists (Python dicts from `json.loads` have unique keys). -/
inductive Json where
  | null : Json
  | bool (b : Bool) : Json
  | num (n : Int) : Json
  | str (s : String) : Json
  | arr (items : List Json) : Json
  | obj (fields : List (String × Json)) : Json

/-- The profile fields of `UserScholarship` that the recommendation pipeline
reads.  The remaining profile fields (GPA, income tier, boolean flags) are
consumed only while serializing the prompt text, which the embedding abstracts
into the external-call oracle. -/
structure UserScholarship where
  user_id : Int
  university_type : String
  academic_year_type : String
  major_field : String
  region : String
  district : String
deriving DecidableEq

/-- A `Scholarship` record (the fields read by the pipeline and serialized by
`_scholarship_to_simplified_dict`). -/
structure Scholarship where
  product_id : String
  name : String
  product_type : String
  university_type : String
  academic_year_type : String
  major_field : String
  region : String
  grade_criteria_details : String
  income_criteria_details : String
  specific_qualification_details : String
deriving DecidableEq

/- ---------------------------------------------------------------------------
String primitives (Python semantics, structural recursion)
--------------------------------------------------------------------------- -/

/-- Python `str.strip()` on the character list. -/
def charListTrim (l : List Char) : List Char :=
  ((l.dropWhile Char.isWhitespace).reverse.dropWhile Char.isWhitespace).reverse

/-- Python `s.strip()`. -/
def pyStrip (s : String) : String := String.mk (charListTrim s.data)

/-- Python `s.replace(old, new)` for single-character `old`/`new`. -/
def pyReplaceChar (old new : Char) (s : String) : String :=
  String.mk (s.data.map (fun c => if c == old then new else c))

/-- Python `s.replace(old, "")` for a single-character `old` (deletion). -/
def pyRemoveChar (old : Char) (s : String) : String :=
  String.mk (s.data.filter (fun c => c != old))

/-- `needle.isPrefixOf hay` on character lists. -/
def isPrefixOfCL : List Char → List Char → Bool
  | [], _ => true
  | _ :: _, [] => false
  | a :: as, b :: bs => a == b && isPrefixOfCL as bs

/-- `needle` occurs as a contiguous sublist of `hay`. -/
def containsSub (needle : List Char) : List Char → Bool
  | [] => isPrefixOfCL needle []
  | c :: rest => isPrefixOfCL needle (c :: rest) || containsSub needle rest

/-- Python `needle in hay` (substring test). -/
def pyIn (needle hay : String) : Bool := containsSub needle.data hay.data

/-- Django `field__icontains=needle`: case-insensitive substring test. -/
def icontains (hay needle : String) : Bool :=
  containsSub (needle.data.map Char.toLower) (hay.data.map Char.toLower)

/-- Python `' '.join(parts)`. -/
def joinSpace : List String → String
  | [] => ""
  | [s] => s
  | s :: rest => s ++ " " ++ joinSpace rest

/- ---------------------------------------------------------------------------
Stage 2: eligibility ("basic") filtering — `filter_basic`
--------------------------------------------------------------------------- -/

/-- University-type sub-filter of `filter_basic`.  Normalizes `'-'` to `'~'`
on both sides, keeps the catalog rows whose raw `university_type` is among the
distinct values matched by substring; if nothing matches, the sub-filter is
skipped (fail-open). -/
def universityTypeStep (qs : List Scholarship) (u : UserScholarship) : List Scholarship :=
  if u.university_type != "" && pyStrip u.university_type != "" then
    let allTypes := (qs.map (fun s => s.university_type)).dedup
    let userNorm := pyReplaceChar '-' '~' (pyStrip u.university_type)
    let matching := allTypes.filter (fun t => pyIn userNorm (pyReplaceChar '-' '~' t))
    if matching.isEmpty then qs
    else qs.filter (fun s => matching.contains s.university_type)
  else qs

/-- Academic-year sub-filter of `filter_basic`.  Same fail-open policy, with
whitespace removal as the normalization. -/
def academicYearStep (qs : List Scholarship) (u : UserScholarship) : List Scholarship :=
  if u.academic_year_type != "" && pyStrip u.academic_year_type != "" then
    let allYears := (qs.map (fun s => s.academic_year_type)).dedup
    let userNorm := pyRemoveChar ' ' (pyStrip u.academic_year_type)
    let matching := allYears.filter (fun t => pyIn userNorm (pyRemoveChar ' ' t))
    if matching.isEmpty then qs
    else qs.filter (fun s => matching.contains s.academic_year_type)
  else qs

/-- The `all_major_keywords` sentinel labels accepting any field of study. -/
def all_major_keywords : List String := ["해당없음", "제한없음", "전공무관", "특정학과"]

/-- Major-field sub-filter of `filter_basic`: user's major as a
case-insensitive substring of the record's `major_field`, or the record's
`major_field` being one of the sentinel labels. -/
def majorFieldStep (qs : List Scholarship) (u : UserScholarship) : List Scholarship :=
  if u.major_field != "" && pyStrip u.major_field != "" then
    qs.filter (fun s =>
      icontains s.major_field (pyStrip u.major_field) || all_major_keywords.contains s.major_field)
  else qs

/-- `filter_basic`: the three sub-filters applied in source order. -/
def filter_basic (qs : List Scholarship) (u : UserScholarship) : List Scholarship :=
  majorFieldStep (academicYearStep (universityTypeStep qs u) u) u

/- ---------------------------------------------------------------------------
Stage 3: region filtering — `filter_by_region_preprocessed`
--------------------------------------------------------------------------- -/

/-- `list(filter(None, [user_region_do.strip(), user_district.strip()]))`. -/
def regionParts (u : UserScholarship) : List String :=
  [pyStrip u.region, pyStrip u.district].filter (fun p => p != "")

/-- `full_user_region = ' '.join(user_region_parts)`. -/
def combinedRegion (u : UserScholarship) : String := joinSpace (regionParts u)

/-- The nationwide region marker. -/
def nationwideMarker : String := "전국"

/-- `filter_by_region_preprocessed`: with no region information keep only
nationwide-scoped rows; otherwise keep rows whose region is exactly one of
`[full] + parts` or contains the nationwide marker, then deduplicate. -/
def filter_by_region_preprocessed (qs : List Scholarship) (u : UserScholarship) :
    List Scholarship :=
  if combinedRegion u == "" then
    qs.filter (fun s => icontains s.region nationwideMarker)
  else
    (qs.filter (fun s =>
      (combinedRegion u :: regionParts u).contains s.region
        || icontains s.region nationwideMarker)).dedup

/- ---------------------------------------------------------------------------
Stage 4: relevance scoring and sampling (inside `recommend_final_scholarships_by_gpt`)
--------------------------------------------------------------------------- -/

/-- Django's `Case(When(...), ..., default=...)`: first branch whose condition
holds decides the value. -/
def caseWhen (branches : List ((Scholarship → Bool) × Int)) (dflt : Int) (s : Scholarship) : Int :=
  match branches with
  | [] => dflt
  | (c, v) :: rest => if c s then v else caseWhen rest dflt s

/-- The four `When` branches of `score_annotation`, in source order.  Note that
the second branch compares against the raw (unstripped) `region` attribute,
exactly as the source does. -/
def scoreBranches (u : UserScholarship) : List ((Scholarship → Bool) × Int) :=
  [ (fun s => s.region == combinedRegion u, 10),
    (fun s => s.region == u.region, 7),
    (fun s => icontains s.major_field u.major_field, 5),
    (fun s => icontains s.region nationwideMarker, 1) ]

/-- `relevance_score` annotation value for one record. -/
def relevance_score (u : UserScholarship) (s : Scholarship) : Int :=
  caseWhen (scoreBranches u) 0 s

/-- Stable insertion (descending by score) for `order_by('-relevance_score')`. -/
def insertDesc (x : Scholarship × Int) : List (Scholarship × Int) → List (Scholarship × Int)
  | [] => [x]
  | y :: ys => if y.2 < x.2 then x :: y :: ys else y :: insertDesc x ys

/-- Stable descending sort by score (a deterministic rendering of the
collaborator's `order_by('-relevance_score')`; tie order among equal scores
preserves catalog order). -/
def orderByScoreDesc : List (Scholarship × Int) → List (Scholarship × Int)
  | [] => []
  | x :: xs => insertDesc x (orderByScoreDesc xs)

/-- `scored_queryset`: every candidate annotated with its relevance score,
sorted descending. -/
def scoredSorted (qs : List Scholarship) (u : UserScholarship) : List (Scholarship × Int) :=
  orderByScoreDesc (qs.map (fun s => (s, relevance_score u s)))

/-- `sample_size = 20`. -/
def sample_size : Nat := 20

/-- `sampled_queryset_for_gpt = scored_queryset[:min(scored_queryset.count(), sample_size)]`
projected back to the records. -/
def sampledScholarships (qs : List Scholarship) (u : UserScholarship) : List Scholarship :=
  ((scoredSorted qs u).take (min (scoredSorted qs u).length sample_size)).map (fun p => p.1)

/- ---------------------------------------------------------------------------
GPT interaction helpers: `call_gpt`, `extract_json_from_gpt_response`,
`safe_parse_json`
--------------------------------------------------------------------------- -/

/-- Outcome classes of one `openai.ChatCompletion.create` invocation that the
source distinguishes: success with response text, `openai.error.OpenAIError`,
or any other raised exception. -/
inductive ApiError where
  | openAIError : ApiError
  | otherException : ApiError
deriving DecidableEq

/-- `call_gpt`: performs exactly one `openai.ChatCompletion.create` invocation
(there is no retry loop in the source); both `except` clauses turn a raised
exception into the empty string.  Returns the response text together with the
number of external invocations performed. -/
def call_gpt (api : Except ApiError String) : String × Nat :=
  match api with
  | Except.ok content => (content, 1)
  | Except.error _ => ("", 1)

/-- Helper for the greedy `.*` in the extraction regex: the prefix of `l` up to
and including the last occurrence of `c`. -/
def takeThroughLast (c : Char) (l : List Char) : List Char :=
  (l.reverse.dropWhile (fun x => x != c)).reverse

/-- `re.search(r"\[.*\]|\x7b.*\x7d", s, re.DOTALL)`: scan positions left to
right; at each position try the (greedy) bracket alternative, then the brace
alternative. -/
def extractSpan : List Char → Option (List Char)
  | [] => none
  | c :: rest =>
    if c == '[' && rest.contains ']' then some ('[' :: takeThroughLast ']' rest)
    else if c == '{' && rest.contains '}' then some ('{' :: takeThroughLast '}' rest)
    else extractSpan rest

/-- `extract_json_from_gpt_response`: the matched span, or `"[]"` when the
regex finds none. -/
def extract_json_from_gpt_response (s : String) : String :=
  match extractSpan s.data with
  | some cs => String.mk cs
  | none => "[]"

/-- `safe_parse_json`: extract the span and run `json.loads` (the `loads`
parameter; `none` models a raised parse error, folded into `[]` by the
`except` clause, as is an extracted string that is empty after `strip`). -/
def safe_parse_json (loads : String → Option Json) (response_text : String) : Json :=
  if pyStrip (extract_json_from_gpt_response response_text) == "" then Json.arr []
  else
    match loads (extract_json_from_gpt_response response_text) with
    | some v => v
    | none => Json.arr []

/- ---------------------------------------------------------------------------
Stage 5: `recommend_final_scholarships_by_gpt` — validation and fallback
--------------------------------------------------------------------------- -/

/-- Exceptions that the source can let escape from the validation loop and the
final projection. -/
inductive PyErr where
  | attributeError : PyErr
  | typeError : PyErr
  | keyError (key : String) : PyErr
deriving DecidableEq

/-- Python `dict.get` on a parsed JSON object. -/
def jsonGet (fields : List (String × Json)) (k : String) : Option Json :=
  (fields.find? (fun p => p.1 == k)).map (fun p => p.2)

/-- Python truthiness of a JSON value. -/
def Json.truthy : Json → Bool
  | Json.null => false
  | Json.bool b => b
  | Json.num n => n != 0
  | Json.str s => s != ""
  | Json.arr items => !items.isEmpty
  | Json.obj fields => !fields.isEmpty

/-- Whether the Python value is hashable (usable as a dict-membership key);
lists and dicts are not. -/
def Json.hashable : Json → Bool
  | Json.arr _ => false
  | Json.obj _ => false
  | _ => true

/-- A parsed item accepted by the validation loop: its `product_id`, the
object's fields (the item dict, whose `'reason'` key may be absent), and the
attached `Scholarship` object (`item['scholarship'] = ...`). -/
structure ValidItem where
  product_id : String
  fields : List (String × Json)
  scholarship : Scholarship

/-- `sampled_ids_map = {s.product_id: s for s in sampled_queryset_for_gpt}`
(dict comprehension: a later duplicate key overwrites an earlier one). -/
def sampledIdsMap (sampled : List Scholarship) (pid : String) : Option Scholarship :=
  sampled.reverse.find? (fun s => s.product_id == pid)

/-- The `for item in parsed_response` validation loop.  Faithful to the source
order of operations: `item.get('product_id')` runs before the
`isinstance(item, dict)` test, so a non-dict item raises `AttributeError`; a
truthy unhashable `product_id` raises `TypeError` from the dict-membership
test; otherwise items whose id is absent from the sample map are discarded. -/
def validateLoop (lookup : String → Option Scholarship) : List Json → Except PyErr (List ValidItem)
  | [] => Except.ok []
  | item :: rest =>
    match item with
    | Json.obj fields =>
      let pid := (jsonGet fields "product_id").getD Json.null
      if pid.truthy then
        if pid.hashable then
          match pid with
          | Json.str s =>
            match lookup s with
            | some sch =>
              match validateLoop lookup rest with
              | Except.ok tail => Except.ok (⟨s, fields, sch⟩ :: tail)
              | Except.error e => Except.error e
            | none => validateLoop lookup rest
          | _ => validateLoop lookup rest
        else Except.error PyErr.typeError
      else validateLoop lookup rest
    | _ => Except.error PyErr.attributeError

/-- One entry of the list returned by `recommend_final_scholarships_by_gpt`:
the dict's `product_id`, its `'reason'` value when the key is present, and the
attached `Scholarship`. -/
structure GptRec where
  product_id : String
  reasonOpt : Option Json
  scholarship : Scholarship

/-- Generic reason attached by the parse-failure fallback. -/
def fallbackReasonA : String := "GPT 분석 실패로 인한 기본 추천"

/-- Generic reason attached by the zero-validated fallback. -/
def fallbackReasonB : String := "조건 일치도를 기반으로 자동 추천된 장학금입니다."

/-- `fallback_qs = scored_queryset[:min(scored_queryset.count(), 20)]` turned
into result dicts bearing the given generic reason. -/
def fallbackList (qs : List Scholarship) (u : UserScholarship) (reason : String) : List GptRec :=
  ((scoredSorted qs u).take (min (scoredSorted qs u).length 20)).map
    (fun p => ⟨p.1.product_id, some (Json.str reason), p.1⟩)

/-- `final_results = valid_recommendations[:20]` as result dicts. -/
def validatedList (valids : List ValidItem) : List GptRec :=
  (valids.take 20).map (fun v => ⟨v.product_id, jsonGet v.fields "reason", v.scholarship⟩)

/-- `recommend_final_scholarships_by_gpt`.  Returns the result (or the raised
exception) together with the number of external `openai` invocations. -/
def recommend_final_scholarships_by_gpt (loads : String → Option Json)
    (api : Except ApiError String) (qs : List Scholarship) (u : UserScholarship) :
    Except PyErr (List GptRec) × Nat :=
  if qs.length == 0 then (Except.ok [], 0)
  else
    match safe_parse_json loads (call_gpt api).1 with
    | Json.arr [] => (Except.ok (fallbackList qs u fallbackReasonA), (call_gpt api).2)
    | Json.arr (item :: items) =>
      match validateLoop (sampledIdsMap (sampledScholarships qs u)) (item :: items) with
      | Except.error e => (Except.error e, (call_gpt api).2)
      | Except.ok [] => (Except.ok (fallbackList qs u fallbackReasonB), (call_gpt api).2)
      | Except.ok (v :: vs) => (Except.ok (validatedList (v :: vs)), (call_gpt api).2)
    | _ => (Except.ok (fallbackList qs u fallbackReasonA), (call_gpt api).2)

/- ---------------------------------------------------------------------------
Stage 6: `recommend` — orchestration and result projection
--------------------------------------------------------------------------- -/

/-- Projection of one result dict in `recommend`'s final comprehension:
`r['product_id']` (always present) and `r['reason']` (raises `KeyError` when
the key is absent). -/
def projectOne (r : GptRec) : Except PyErr (String × Json) :=
  match r.reasonOpt with
  | some v => Except.ok (r.product_id, v)
  | none => Except.error (PyErr.keyError "reason")

/-- The final list comprehension of `recommend`. -/
def projectAll : List GptRec → Except PyErr (List (String × Json))
  | [] => Except.ok []
  | r :: rest =>
    match projectOne r with
    | Except.error e => Except.error e
    | Except.ok p =>
      match projectAll rest with
      | Except.error e => Except.error e
      | Except.ok ps => Except.ok (p :: ps)

/-- `recommend(user_id)`.  The profile store is a read-by-identifier lookup
(`UserScholarship.objects.get`; `none` models `DoesNotExist`), the catalog is
`Scholarship.objects.all()` (the date filter is commented out in the source).
Returns the `(product_id, reason)` list — or the escaped exception — together
with the number of external `openai` invocations. -/
def recommend (store : Int → Option UserScholarship) (catalog : List Scholarship)
    (loads : String → Option Json) (api : Except ApiError String) (user_id : Int) :
    Except PyErr (List (String × Json)) × Nat :=
  match store user_id with
  | none => (Except.ok [], 0)
  | some u =>
    match recommend_final_scholarships_by_gpt loads api
        (filter_by_region_preprocessed (filter_basic catalog u) u) u with
    | (Except.error e, n) => (Except.error e, n)
    | (Except.ok recs, n) => (projectAll recs, n)

/- ---------------------------------------------------------------------------
Concrete data for witnesses and counterexamples (the end-to-end example of
the specification: a Gyeonggi-Paju user, one Paju-scoped record, one
nationwide field-unrestricted record)
--------------------------------------------------------------------------- -/

/-- The end-to-end example user: Gyeonggi province, Paju district, computer
science major, 4-year university. -/
def exUser : UserScholarship :=
  { user_id := 1
    university_type := "4년제"
    academic_year_type := ""
    major_field := "컴퓨터공학"
    region := "경기"
    district := "파주" }

/-- The Gyeonggi-Paju-scoped, computer-science-scoped example record. -/
def pajuRec : Scholarship :=
  { product_id := "장학금B_지자체B"
    name := "파주시 인재 장학금"
    product_type := "지역연계"
    university_type := "4년제대학"
    academic_year_type := "전체학년"
    major_field := "컴퓨터공학 및 IT계열"
    region := "경기 파주"
    grade_criteria_details := "직전학기 3.5 이상"
    income_criteria_details := "소득분위 8분위 이내"
    specific_qualification_details := "해당없음" }

/-- The nationwide, field-unrestricted example record. -/
def nationRec : Scholarship :=
  { product_id := "장학금A_재단A"
    name := "전국 재단 장학금"
    product_type := "재단"
    university_type := "4년제대학"
    academic_year_type := "전체학년"
    major_field := "전공무관"
    region := "전국"
    grade_criteria_details := "제한없음"
    income_criteria_details := "소득분위 8분위 이내"
    specific_qualification_details := "해당없음" }

/-- The example catalog. -/
def exCatalog : List Scholarship := [pajuRec, nationRec]

/-- The example profile store: user 1 only. -/
def exStore : Int → Option UserScholarship := fun i => if i == 1 then some exUser else none

/-- The candidate set surviving both filters for the example request. -/
def exFiltered : List Scholarship :=
  filter_by_region_preprocessed (filter_basic exCatalog exUser) exUser

/-- Raw response whose parsed value is a JSON array of non-object items. -/
def rawNonObj : String := "[1, 2, 3]"

/-- Raw response containing one valid identifier but no reason field. -/
def rawNoReason : String := "[\x7b\"product_id\": \"장학금B_지자체B\"\x7d]"

/-- Raw response whose only object bears an identifier absent from the sample. -/
def rawUnknown : String := "[\x7b\"product_id\": \"없는장학금\"\x7d]"

/-- Raw response repeating the same valid object twice. -/
def rawDup : String :=
  "[\x7b\"product_id\": \"장학금B_지자체B\", \"reason\": \"지역 요건 부합\"\x7d, \x7b\"product_id\": \"장학금B_지자체B\", \"reason\": \"지역 요건 부합\"\x7d]"

/-- The parsed object fields of one `rawDup` item. -/
def dupFields : List (String × Json) :=
  [("product_id", Json.str "장학금B_지자체B"), ("reason", Json.str "지역 요건 부합")]

/-- A concrete stand-in for `json.loads` covering exactly the strings the
witnesses and counterexamples feed through the pipeline. -/
def exLoads : String → Option Json := fun s =>
  if s == "[]" then some (Json.arr [])
  else if s == rawNonObj then some (Json.arr [Json.num 1, Json.num 2, Json.num 3])
  else if s == rawNoReason then
    some (Json.arr [Json.obj [("product_id", Json.str "장학금B_지자체B")]])
  else if s == rawUnknown then
    some (Json.arr [Json.obj [("product_id", Json.str "없는장학금")]])
  else if s == rawDup then
    some (Json.arr [Json.obj dupFields, Json.obj dupFields])
  else none

/- ---------------------------------------------------------------------------
Helper lemmas
--------------------------------------------------------------------------- -/

/-- The empty needle occurs in every haystack (Python `"" in s` is `True`). -/
theorem containsSub_nil (l : List Char) : containsSub [] l = true := by
  cases l <;> simp [containsSub, isPrefixOfCL]

/-- An empty user major makes the scorer's `icontains` branch true on every
record. -/
theorem icontains_empty_needle (hay : String) : icontains hay "" = true :=
  containsSub_nil _

/-- Soundness of the validation loop: every accepted item's identifier maps to
its attached record in the sample map. -/
theorem validateLoop_ok_mem (lookup : String → Option Scholarship) :
    ∀ (items : List Json) (valids : List ValidItem),
      validateLoop lookup items = Except.ok valids →
      ∀ v ∈ valids, lookup v.product_id = some v.scholarship := by
  intro items
  induction items with
  | nil =>
    intro valids h v hv
    simp only [validateLoop] at h
    cases h
    simp at hv
  | cons item rest ih =>
    intro valids h v hv
    cases item with
    | obj fields =>
      simp only [validateLoop] at h
      by_cases ht : ((jsonGet fields "product_id").getD Json.null).truthy
      · rw [if_pos ht] at h
        by_cases hh : ((jsonGet fields "product_id").getD Json.null).hashable
        · rw [if_pos hh] at h
          cases hpid : (jsonGet fields "product_id").getD Json.null with
          | str s =>
            simp only [hpid] at h
            cases hl : lookup s with
            | none =>
              simp only [hl] at h
              exact ih valids h v hv
            | some sch =>
              simp only [hl] at h
              cases hr : validateLoop lookup rest with
              | error e =>
                simp only [hr] at h
                exact Except.noConfusion h
              | ok tail =>
                simp only [hr] at h
                cases h
                rcases List.mem_cons.mp hv with hv1 | hv2
                · subst hv1; exact hl
                · exact ih tail hr v hv2
          | null => simp only [hpid] at h; exact ih valids h v hv
          | bool b => simp only [hpid] at h; exact ih valids h v hv
          | num m => simp only [hpid] at h; exact ih valids h v hv
          | arr l => simp only [hpid] at h; exact ih valids h v hv
          | obj l => simp only [hpid] at h; exact ih valids h v hv
        · rw [if_neg hh] at h
          exact Except.noConfusion h
      · rw [if_neg ht] at h
        exact ih valids h v hv
    | null => simp only [validateLoop] at h; exact Except.noConfusion h
    | bool b => simp only [validateLoop] at h; exact Except.noConfusion h
    | num m => simp only [validateLoop] at h; exact Except.noConfusion h
    | str s => simp only [validateLoop] at h; exact Except.noConfusion h
    | arr l => simp only [validateLoop] at h; exact Except.noConfusion h

/-- A hit in the sample map means the identifier occurs among the sampled
records' identifiers. -/
theorem sampledIdsMap_mem (sampled : List Scholarship) (pid : String) (sch : Scholarship)
    (h : sampledIdsMap sampled pid = some sch) :
    pid ∈ sampled.map (fun s => s.product_id) := by
  have h1 := List.find?_some h
  have h2 := List.mem_of_find?_eq_some h
  rw [List.mem_reverse] at h2
  rw [List.mem_map]
  exact ⟨sch, h2, by simpa using h1⟩

/-- The final projection only reproduces identifiers of the projected dicts. -/
theorem projectAll_ok_ids :
    ∀ (recs : List GptRec) (res : List (String × Json)),
      projectAll recs = Except.ok res → ∀ p ∈ res, ∃ r ∈ recs, p.1 = r.product_id := by
  intro recs
  induction recs with
  | nil =>
    intro res h p hp
    simp only [projectAll] at h
    cases h
    simp at hp
  | cons r rest ih =>
    intro res h p hp
    simp only [projectAll, projectOne] at h
    cases hro : r.reasonOpt with
    | none => simp only [hro] at h; exact Except.noConfusion h
    | some jv =>
      simp only [hro] at h
      cases hrest : projectAll rest with
      | error e => simp only [hrest] at h; exact Except.noConfusion h
      | ok ps =>
        simp only [hrest] at h
        cases h
        rcases List.mem_cons.mp hp with hp1 | hp2
        · exact ⟨r, List.mem_cons_self _ _, by rw [hp1]⟩
        · obtain ⟨r', hr', hpid⟩ := ih ps hrest p hp2
          exact ⟨r', List.mem_cons_of_mem _ hr', hpid⟩

/-- Fallback entries are drawn from the sampled slice of the scored ordering. -/
theorem fallbackList_ids (qs : List Scholarship) (u : UserScholarship) (reason : String)
    (r : GptRec) (h : r ∈ fallbackList qs u reason) :
    r.product_id ∈ (sampledScholarships qs u).map (fun s => s.product_id) := by
  simp only [fallbackList, List.mem_map] at h
  obtain ⟨p, hp, rfl⟩ := h
  simp only [sampledScholarships, sample_size, List.map_map, List.mem_map]
  exact ⟨p, hp, rfl⟩

/-- Validated entries are drawn from the sample map's key set. -/
theorem validatedList_ids (valids : List ValidItem) (items : List Json)
    (sampled : List Scholarship)
    (hval : validateLoop (sampledIdsMap sampled) items = Except.ok valids)
    (r : GptRec) (h : r ∈ validatedList valids) :
    r.product_id ∈ sampled.map (fun s => s.product_id) := by
  simp only [validatedList, List.mem_map] at h
  obtain ⟨v, hv, rfl⟩ := h
  have hmem : v ∈ valids := List.take_subset _ _ hv
  have hlk := validateLoop_ok_mem (sampledIdsMap sampled) items valids hval v hmem
  exact sampledIdsMap_mem sampled v.product_id v.scholarship hlk

/-- Every identifier produced by `recommend_final_scholarships_by_gpt` (on any
of its normal-return paths) comes from the sampled candidate set. -/
theorem recommend_final_ids (loads : String → Option Json) (api : Except ApiError String)
    (qs : List Scholarship) (u : UserScholarship) (recs : List GptRec) (n : Nat)
    (h : recommend_final_scholarships_by_gpt loads api qs u = (Except.ok recs, n)) :
    ∀ r ∈ recs, r.product_id ∈ (sampledScholarships qs u).map (fun s => s.product_id) := by
  intro r hr
  unfold recommend_final_scholarships_by_gpt at h
  split at h
  · injection h with h1 h2
    injection h1 with h3
    subst h3
    simp at hr
  · split at h
    · injection h with h1 h2
      injection h1 with h3
      subst h3
      exact fallbackList_ids qs u fallbackReasonA r hr
    · rename_i item items hparse
      split at h
      · injection h with h1 h2
        exact Except.noConfusion h1
      · injection h with h1 h2
        injection h1 with h3
        subst h3
        exact fallbackList_ids qs u fallbackReasonB r hr
      · rename_i v vs hval
        injection h with h1 h2
        injection h1 with h3
        subst h3
        exact validatedList_ids (v :: vs) (item :: items) (sampledScholarships qs u) hval r hr
    · injection h with h1 h2
      injection h1 with h3
      subst h3
      exact fallbackList_ids qs u fallbackReasonA r hr

/- ---------------------------------------------------------------------------
Claim theorems
--------------------------------------------------------------------------- -/

/-- C1 (evaluation at the failing inputs): a parsed response `[1, 2, 3]` makes
the validation loop raise `AttributeError` (because `item.get('product_id')`
runs before the `isinstance(item, dict)` test), and a validated object lacking
a `reason` key makes `recommend`'s final projection raise `KeyError`; both
escape to `recommend`'s caller instead of a normal list. -/
theorem c1_crash_eval :
    recommend exStore exCatalog exLoads (Except.ok rawNonObj) 1 =
      (Except.error PyErr.attributeError, 1)
    ∧ recommend exStore exCatalog exLoads (Except.ok rawNoReason) 1 =
      (Except.error (PyErr.keyError "reason"), 1) :=
  ⟨rfl, rfl⟩

/-- C2 (counterexample): when the single attempt raises a transient error, the
external call function is invoked exactly once — not 3 times — before the
empty response is returned; there is no retry loop in `call_gpt`. -/
theorem c2_counterexample :
    call_gpt (Except.error ApiError.openAIError) = ("", 1)
    ∧ (call_gpt (Except.error ApiError.openAIError)).2 ≠ 3 :=
  ⟨rfl, by decide⟩

/-- C2 (amended): when the external text-generation attempt raises an error of
either caught class, `call_gpt` invokes the external call function exactly
once and yields the empty response; no exception escapes (the function returns
normally for every outcome). -/
theorem c2_single_invocation (e : ApiError) : call_gpt (Except.error e) = ("", 1) := rfl

/-- Witness for `c2_single_invocation` at a concrete error. -/
theorem c2_witness : call_gpt (Except.error ApiError.otherException) = ("", 1) :=
  c2_single_invocation ApiError.otherException

/-- The scoring rule exactly as the specification words it: a first-matching
rule cascade 10 / 7 / 5 / 1 / 0 (to be compared with the source-derived
`relevance_score`). -/
def specScore (u : UserScholarship) (s : Scholarship) : Int :=
  if s.region == combinedRegion u then 10
  else if s.region == u.region then 7
  else if icontains s.major_field u.major_field then 5
  else if icontains s.region nationwideMarker then 1
  else 0

/-- C5: the relevance score follows first-matching-rule semantics — 10 for the
combined region, else 7 for the province alone, else 5 on a field-of-study
containment match, else 1 for nationwide scope, else 0 — and in the end-to-end
example both records survive filtering, the Paju-scoped record scores 10 and
the nationwide record scores 1. -/
theorem c5_first_match_scoring :
    (∀ (u : UserScholarship) (s : Scholarship), relevance_score u s = specScore u s)
    ∧ pajuRec ∈ filter_by_region_preprocessed (filter_basic exCatalog exUser) exUser
    ∧ nationRec ∈ filter_by_region_preprocessed (filter_basic exCatalog exUser) exUser
    ∧ relevance_score exUser pajuRec = 10
    ∧ relevance_score exUser nationRec = 1 := by
  refine ⟨fun u s => ?_, by decide, by decide, by decide, by decide⟩
  simp [relevance_score, scoreBranches, caseWhen, specScore]

/-- Witness for `c5_first_match_scoring` at the example user and record. -/
theorem c5_witness : relevance_score exUser pajuRec = specScore exUser pajuRec :=
  c5_first_match_scoring.1 exUser pajuRec

/-- C9: with an empty (or missing, stored as empty) user major, the third
scoring branch matches every record, so the score collapses to the 10 / 7 / 5
cascade and the outcomes 1 and 0 are unreachable. -/
theorem c9_empty_major (u : UserScholarship) (s : Scholarship) (h : u.major_field = "") :
    relevance_score u s =
      (if s.region == combinedRegion u then 10 else if s.region == u.region then 7 else 5)
    ∧ relevance_score u s ≠ 1 ∧ relevance_score u s ≠ 0 := by
  have hic : icontains s.major_field u.major_field = true := by
    rw [h]; exact icontains_empty_needle _
  have heq : relevance_score u s =
      (if s.region == combinedRegion u then 10 else if s.region == u.region then 7 else 5) := by
    simp [relevance_score, scoreBranches, caseWhen, hic]
  refine ⟨heq, ?_, ?_⟩ <;> rw [heq] <;> split_ifs <;> decide

/-- The example user with the major field cleared. -/
def exUserNoMajor : UserScholarship := { exUser with major_field := "" }

/-- Witness for `c9_empty_major` at a concrete profile and record. -/
theorem c9_witness :
    relevance_score exUserNoMajor nationRec =
      (if nationRec.region == combinedRegion exUserNoMajor then 10
       else if nationRec.region == exUserNoMajor.region then 7 else 5)
    ∧ relevance_score exUserNoMajor nationRec ≠ 1
    ∧ relevance_score exUserNoMajor nationRec ≠ 0 :=
  c9_empty_major exUserNoMajor nationRec rfl

/-- C6: if the user's normalized institution type matches no normalized
catalog institution-type value, the institution-type sub-filter is skipped
entirely (excludes no candidates); the academic-year sub-filter fails open the
same way under whitespace-removal normalization. -/
theorem c6_fail_open (qs qs2 : List Scholarship) (u u2 : UserScholarship)
    (hu : pyStrip u.university_type ≠ "")
    (hnm : ∀ t ∈ qs.map (fun s => s.university_type),
      pyIn (pyReplaceChar '-' '~' (pyStrip u.university_type)) (pyReplaceChar '-' '~' t) = false)
    (hy : pyStrip u2.academic_year_type ≠ "")
    (hnm2 : ∀ t ∈ qs2.map (fun s => s.academic_year_type),
      pyIn (pyRemoveChar ' ' (pyStrip u2.academic_year_type)) (pyRemoveChar ' ' t) = false) :
    universityTypeStep qs u = qs ∧ academicYearStep qs2 u2 = qs2 := by
  constructor
  · have hne : u.university_type ≠ "" := fun hx => hu (by rw [hx]; rfl)
    have hc : (u.university_type != "" && pyStrip u.university_type != "") = true := by
      simp [hne, hu]
    have hm : ((qs.map (fun s => s.university_type)).dedup).filter
        (fun t => pyIn (pyReplaceChar '-' '~' (pyStrip u.university_type))
          (pyReplaceChar '-' '~' t)) = [] := by
      rw [List.filter_eq_nil_iff]
      intro t ht
      simp [hnm t (List.mem_dedup.mp ht)]
    simp [universityTypeStep, hc, hm]
  · have hne : u2.academic_year_type ≠ "" := fun hx => hy (by rw [hx]; rfl)
    have hc : (u2.academic_year_type != "" && pyStrip u2.academic_year_type != "") = true := by
      simp [hne, hy]
    have hm : ((qs2.map (fun s => s.academic_year_type)).dedup).filter
        (fun t => pyIn (pyRemoveChar ' ' (pyStrip u2.academic_year_type))
          (pyRemoveChar ' ' t)) = [] := by
      rw [List.filter_eq_nil_iff]
      intro t ht
      simp [hnm2 t (List.mem_dedup.mp ht)]
    simp [academicYearStep, hc, hm]

/-- The example user with institution type and academic year that match
nothing in the example catalog. -/
def exUserOdd : UserScholarship :=
  { exUser with university_type := "의과대학", academic_year_type := "9학년" }

/-- Witness for `c6_fail_open`: both sub-filters leave the example catalog
untouched for a user whose values match no catalog entry. -/
theorem c6_witness :
    universityTypeStep exCatalog exUserOdd = exCatalog
    ∧ academicYearStep exCatalog exUserOdd = exCatalog :=
  c6_fail_open exCatalog exCatalog exUserOdd exUserOdd
    (by decide) (by decide) (by decide) (by decide)

/-- C8: an unknown user identifier yields an empty list (no error), and when
no candidate survives filtering the result is empty with the external
text-generation call never invoked (invocation count 0). -/
theorem c8_empty_results (store : Int → Option UserScholarship) (catalog : List Scholarship)
    (loads : String → Option Json) (api : Except ApiError String) (uid : Int) :
    (store uid = none → recommend store catalog loads api uid = (Except.ok [], 0))
    ∧ ∀ u, store uid = some u →
        filter_by_region_preprocessed (filter_basic catalog u) u = [] →
        recommend store catalog loads api uid = (Except.ok [], 0) := by
  constructor
  · intro h
    unfold recommend
    rw [h]
  · intro u hu hf
    simp [recommend, hu, hf, recommend_final_scholarships_by_gpt, projectAll]

/-- Witness for `c8_empty_results`: unknown user 99 yields `([], 0)`, and a
known user over the empty catalog yields `([], 0)` without any external
invocation. -/
theorem c8_witness :
    recommend exStore exCatalog exLoads (Except.ok rawDup) 99 = (Except.ok [], 0)
    ∧ recommend exStore [] exLoads (Except.ok rawDup) 1 = (Except.ok [], 0) :=
  ⟨(c8_empty_results exStore exCatalog exLoads (Except.ok rawDup) 99).1 rfl,
   (c8_empty_results exStore [] exLoads (Except.ok rawDup) 1).2 exUser rfl rfl⟩

/-- C7: with an empty combined region the filter keeps exactly the
nationwide-scoped records; otherwise it keeps exactly the records whose region
equals the combined string, the non-empty province alone, the non-empty
district alone, or contains the nationwide marker; the output carries no
duplicates. -/
theorem c7_region_filter (qs : List Scholarship) (u : UserScholarship) (s : Scholarship) :
    (combinedRegion u = "" →
      (s ∈ filter_by_region_preprocessed qs u ↔
        s ∈ qs ∧ icontains s.region nationwideMarker = true))
    ∧ (combinedRegion u ≠ "" →
      (s ∈ filter_by_region_preprocessed qs u ↔
        s ∈ qs ∧ (s.region = combinedRegion u
          ∨ (pyStrip u.region ≠ "" ∧ s.region = pyStrip u.region)
          ∨ (pyStrip u.district ≠ "" ∧ s.region = pyStrip u.district)
          ∨ icontains s.region nationwideMarker = true)))
    ∧ (combinedRegion u ≠ "" → (filter_by_region_preprocessed qs u).Nodup)
    ∧ (qs.Nodup → (filter_by_region_preprocessed qs u).Nodup) := by
  refine ⟨?_, ?_, ?_, ?_⟩
  · intro h
    simp [filter_by_region_preprocessed, h, List.mem_filter]
  · intro h
    simp only [filter_by_region_preprocessed, beq_iff_eq, if_neg h]
    rw [List.mem_dedup, List.mem_filter]
    have hcont : ∀ (l : List String) (x : String), (l.contains x = true) ↔ x ∈ l :=
      fun l x => List.elem_iff
    refine and_congr_right fun _ => ?_
    rw [Bool.or_eq_true, hcont]
    by_cases hp : pyStrip u.region = "" <;> by_cases hd : pyStrip u.district = ""
    · exact absurd (by simp [combinedRegion, regionParts, hp, hd, joinSpace]) h
    · have hparts : regionParts u = [pyStrip u.district] := by simp [regionParts, hp, hd]
      rw [hparts]
      simp only [List.mem_cons, List.mem_singleton, List.not_mem_nil, or_false, hp]
      simp only [ne_eq, not_true_eq_false, false_and, false_or]
      tauto
    · have hparts : regionParts u = [pyStrip u.region] := by simp [regionParts, hp, hd]
      rw [hparts]
      simp only [List.mem_cons, List.mem_singleton, List.not_mem_nil, or_false, hd]
      simp only [ne_eq, not_true_eq_false, false_and, false_or]
      tauto
    · have hparts : regionParts u = [pyStrip u.region, pyStrip u.district] := by
        simp [regionParts, hp, hd]
      rw [hparts]
      simp only [List.mem_cons, List.mem_singleton, List.not_mem_nil, or_false]
      simp only [ne_eq, hp, hd, not_false_eq_true, true_and]
      tauto
  · intro h
    simp only [filter_by_region_preprocessed, beq_iff_eq, if_neg h]
    exact List.nodup_dedup _
  · intro h
    by_cases hc : combinedRegion u = ""
    · simp only [filter_by_region_preprocessed, hc, beq_self_eq_true, if_true]
      exact h.filter _
    · simp only [filter_by_region_preprocessed, beq_iff_eq, if_neg hc]
      exact List.nodup_dedup _

/-- Witness for `c7_region_filter` on the example catalog and Paju user. -/
theorem c7_witness :
    (pajuRec ∈ filter_by_region_preprocessed exCatalog exUser ↔
      pajuRec ∈ exCatalog ∧ (pajuRec.region = combinedRegion exUser
        ∨ (pyStrip exUser.region ≠ "" ∧ pajuRec.region = pyStrip exUser.region)
        ∨ (pyStrip exUser.district ≠ "" ∧ pajuRec.region = pyStrip exUser.district)
        ∨ icontains pajuRec.region nationwideMarker = true))
    ∧ (filter_by_region_preprocessed exCatalog exUser).Nodup :=
  ⟨(c7_region_filter exCatalog exUser pajuRec).2.1 (by decide),
   (c7_region_filter exCatalog exUser pajuRec).2.2.1 (by decide)⟩

/-- C10: the validation loop performs no deduplication — an object bearing a
sampled identifier is accepted at every one of its occurrences — so the list
returned by `recommend` can carry the same scholarship identifier more than
once (shown concretely by a response repeating one valid object twice). -/
theorem c10_no_dedup (fields : List (String × Json)) (pid : String) (sch : Scholarship)
    (lookup : String → Option Scholarship) (n : Nat)
    (hget : jsonGet fields "product_id" = some (Json.str pid))
    (hne : pid ≠ "")
    (hlook : lookup pid = some sch) :
    validateLoop lookup (List.replicate n (Json.obj fields)) =
      Except.ok (List.replicate n (⟨pid, fields, sch⟩ : ValidItem))
    ∧ recommend exStore exCatalog exLoads (Except.ok rawDup) 1 =
      (Except.ok [("장학금B_지자체B", Json.str "지역 요건 부합"),
                  ("장학금B_지자체B", Json.str "지역 요건 부합")], 1) := by
  refine ⟨?_, rfl⟩
  induction n with
  | zero => rfl
  | succ k ih =>
    rw [List.replicate_succ, List.replicate_succ]
    simp only [validateLoop, hget, Option.getD_some, Json.truthy, Json.hashable, hlook, ih,
      bne_iff_ne, ne_eq, hne, not_false_eq_true, if_true]

/-- Witness for `c10_no_dedup`: the duplicated example object is accepted
twice against the example sample map. -/
theorem c10_witness :
    jsonGet dupFields "product_id" = some (Json.str "장학금B_지자체B")
    ∧ validateLoop (sampledIdsMap (sampledScholarships exFiltered exUser))
        (List.replicate 2 (Json.obj dupFields)) =
      Except.ok (List.replicate 2 (⟨"장학금B_지자체B", dupFields, pajuRec⟩ : ValidItem)) :=
  ⟨rfl, (c10_no_dedup dupFields "장학금B_지자체B" pajuRec
      (sampledIdsMap (sampledScholarships exFiltered exUser)) 2 rfl (by decide) rfl).1⟩

/-- C3: every identifier in a list returned by `recommend` belongs to the
sampled candidate set exposed to the external generator for that request —
hallucinated, unknown, missing or malformed identifiers never reach the
output, on the validated path and on both fallback paths. -/
theorem c3_no_hallucinated_ids (store : Int → Option UserScholarship)
    (catalog : List Scholarship) (loads : String → Option Json)
    (api : Except ApiError String) (uid : Int) (u : UserScholarship)
    (res : List (String × Json)) (n : Nat)
    (hu : store uid = some u)
    (h : recommend store catalog loads api uid = (Except.ok res, n)) :
    ∀ p ∈ res, p.1 ∈ (sampledScholarships
        (filter_by_region_preprocessed (filter_basic catalog u) u) u).map
      (fun s => s.product_id) := by
  intro p hp
  simp only [recommend, hu] at h
  split at h
  · rename_i e n' heq
    injection h with h1 h2
    exact Except.noConfusion h1
  · rename_i recs n' heq
    injection h with h1 h2
    obtain ⟨r, hr, hpid⟩ := projectAll_ok_ids recs res h1 p hp
    rw [hpid]
    exact recommend_final_ids loads api _ u recs n' heq r hr

/-- Witness for `c3_no_hallucinated_ids` on the example request (fallback
path): the first returned identifier is in the sampled candidate set. -/
theorem c3_witness :
    ("장학금B_지자체B", Json.str fallbackReasonA).1 ∈
      (sampledScholarships (filter_by_region_preprocessed (filter_basic exCatalog exUser) exUser)
        exUser).map (fun s => s.product_id) :=
  c3_no_hallucinated_ids exStore exCatalog exLoads (Except.error ApiError.openAIError) 1 exUser
    [("장학금B_지자체B", Json.str fallbackReasonA), ("장학금A_재단A", Json.str fallbackReasonA)] 1
    rfl rfl ("장학금B_지자체B", Json.str fallbackReasonA) (List.mem_cons_self _ _)

/-- Inserting into the descending order adds one element. -/
theorem insertDesc_length (x : Scholarship × Int) (l : List (Scholarship × Int)) :
    (insertDesc x l).length = l.length + 1 := by
  induction l with
  | nil => rfl
  | cons y ys ih =>
    simp only [insertDesc]
    split <;> simp [ih]

/-- The descending sort preserves length. -/
theorem orderByScoreDesc_length (l : List (Scholarship × Int)) :
    (orderByScoreDesc l).length = l.length := by
  induction l with
  | nil => rfl
  | cons x xs ih => simp [orderByScoreDesc, insertDesc_length, ih]

/-- The scored ordering has one entry per candidate. -/
theorem scoredSorted_length (qs : List Scholarship) (u : UserScholarship) :
    (scoredSorted qs u).length = qs.length := by
  simp [scoredSorted, orderByScoreDesc_length]

/-- The fallback list is the candidate count capped at 20. -/
theorem fallbackList_length (qs : List Scholarship) (u : UserScholarship) (reason : String) :
    (fallbackList qs u reason).length = min qs.length 20 := by
  simp [fallbackList, List.length_take, scoredSorted_length]

/-- C4 (counterexample): on the example request the failing-call fallback and
the zero-validated fallback return different lists — the parse-failure path
uses the reason `fallbackReasonA`, the zero-validated path the distinct reason
`fallbackReasonB` — so "the same fallback is returned" is false as stated. -/
theorem c4_counterexample :
    (recommend_final_scholarships_by_gpt exLoads (Except.error ApiError.openAIError)
      exFiltered exUser).1 = Except.ok (fallbackList exFiltered exUser fallbackReasonA)
    ∧ (recommend_final_scholarships_by_gpt exLoads (Except.ok rawUnknown)
      exFiltered exUser).1 = Except.ok (fallbackList exFiltered exUser fallbackReasonB)
    ∧ fallbackList exFiltered exUser fallbackReasonA ≠
        fallbackList exFiltered exUser fallbackReasonB := by
  refine ⟨rfl, rfl, ?_⟩
  intro hcontra
  have hA : (fallbackList exFiltered exUser fallbackReasonA).map (fun r => r.reasonOpt) =
      [some (Json.str fallbackReasonA), some (Json.str fallbackReasonA)] := rfl
  rw [hcontra] at hA
  have hB : (fallbackList exFiltered exUser fallbackReasonB).map (fun r => r.reasonOpt) =
      [some (Json.str fallbackReasonB), some (Json.str fallbackReasonB)] := rfl
  rw [hB] at hA
  simp [fallbackReasonA, fallbackReasonB] at hA

/-- C4 (amended): a failing external call yields exactly the deterministic
fallback — the top of the scored-and-sorted set truncated to `min(count, 20)`,
every item bearing the fixed parse-failure reason, after one external
invocation — and the zero-validated case yields the same identifier slice with
the distinct fixed zero-validated reason. -/
theorem c4_fallback (loads : String → Option Json) (qs : List Scholarship)
    (u : UserScholarship) (e : ApiError) (api : Except ApiError String) (items : List Json)
    (hq : qs ≠ [])
    (hl : loads "[]" = some (Json.arr [])) :
    recommend_final_scholarships_by_gpt loads (Except.error e) qs u =
      (Except.ok (fallbackList qs u fallbackReasonA), 1)
    ∧ (safe_parse_json loads (call_gpt api).1 = Json.arr items → items ≠ [] →
        validateLoop (sampledIdsMap (sampledScholarships qs u)) items = Except.ok [] →
        (recommend_final_scholarships_by_gpt loads api qs u).1 =
          Except.ok (fallbackList qs u fallbackReasonB))
    ∧ (fallbackList qs u fallbackReasonA).length = min qs.length 20 := by
  have hlen : ¬((qs.length == 0) = true) := by
    simp only [beq_iff_eq, List.length_eq_zero]
    exact hq
  refine ⟨?_, ?_, fallbackList_length qs u fallbackReasonA⟩
  · have hparse : safe_parse_json loads (call_gpt (Except.error e)).1 = Json.arr [] := by
      show safe_parse_json loads "" = Json.arr []
      unfold safe_parse_json
      rw [show extract_json_from_gpt_response "" = "[]" from rfl]
      rw [if_neg (by decide)]
      rw [hl]
    unfold recommend_final_scholarships_by_gpt
    rw [if_neg hlen]
    simp only [hparse]
    rfl
  · intro hparse2 hne hval
    obtain ⟨i, is, rfl⟩ : ∃ i is, items = i :: is := by
      cases items with
      | nil => exact absurd rfl hne
      | cons i is => exact ⟨i, is, rfl⟩
    unfold recommend_final_scholarships_by_gpt
    rw [if_neg hlen]
    simp only [hparse2, hval]

/-- Witness for `c4_fallback` at the example request with a failing call. -/
theorem c4_witness :
    recommend_final_scholarships_by_gpt exLoads (Except.error ApiError.openAIError)
      exFiltered exUser = (Except.ok (fallbackList exFiltered exUser fallbackReasonA), 1) :=
  (c4_fallback exLoads exFiltered exUser ApiError.openAIError (Except.ok rawUnknown)
    [Json.obj [("product_id", Json.str "없는장학금")]] (by decide) rfl).1

end ScholarMate
